import Mathlib

/- Verification of the speedtest recorder (src/recorder.py) against its
   specification.  The recorder is embedded shallowly: the SQLite database
   file system is a finite map from paths to database states, the recorder
   instance is a record of its Python attributes, printed output is a list
   of lines, and process termination (sys.exit) is an explicit outcome.
   Python floats are modelled by exact rationals; Python round(x, 2) is
   modelled by round-half-even at two decimals (at every concrete value
   appearing in the claims the binary double lies strictly off the decimal
   midpoint or is exact, so the rational model and CPython agree there). -/

namespace SpeedtestRec

/- Data model -/

/-- Server block of the raw speedtest result dictionary. -/
structure RawServer where
  name : String
  country : String
  sponsor : String
  id : String
deriving DecidableEq

/-- Raw result dictionary produced by the external speedtest facility
    (s.results.dict()): rates in bits per second. -/
structure RawResult where
  download : ℚ
  upload : ℚ
  ping : ℚ
  server : RawServer
  timestamp : String
  bytes_sent : ℤ
  bytes_received : ℤ
deriving DecidableEq

/-- The dictionary returned by extract_results (recorder.py lines 102-113);
    it carries no id field. -/
structure ExtractedRecord where
  download_speed_mbps : ℚ
  upload_speed_mbps : ℚ
  ping : ℚ
  server_name : String
  server_country : String
  server_sponsor : String
  server_id : String
  timestamp : String
  bytes_sent : ℤ
  bytes_received : ℤ
deriving DecidableEq

/-- A row of the results table, per the schema in create_db_table
    (recorder.py lines 50-64): id TEXT PRIMARY KEY plus the ten data
    columns. -/
structure MeasurementRecord where
  id : String
  download_speed_mbps : ℚ
  upload_speed_mbps : ℚ
  ping : ℚ
  server_name : String
  server_country : String
  server_sponsor : String
  server_id : String
  timestamp : String
  bytes_sent : ℤ
  bytes_received : ℤ
deriving DecidableEq

/- SQLite model -/

/-- State of one SQLite database file: whether the results table has been
    created, and its rows. -/
structure ResultsDB where
  hasResultsTable : Bool
  rows : List MeasurementRecord
deriving DecidableEq

/-- The file system: a finite association of paths to database files. -/
abbrev FileSystem := List (String × ResultsDB)

def fsLookup : FileSystem → String → Option ResultsDB
  | [], _ => none
  | (p, d) :: rest, q => if p = q then some d else fsLookup rest q

def fsSet : FileSystem → String → ResultsDB → FileSystem
  | [], p, d => [(p, d)]
  | (q, e) :: rest, p, d => if q = p then (q, d) :: rest else (q, e) :: fsSet rest p d

/-- A freshly created SQLite database file: no table yet, no rows. -/
def emptyDB : ResultsDB := { hasResultsTable := false, rows := [] }

/-- sqlite3.connect(path): creates the database file when absent
    (create_db_connection, recorder.py lines 32-44, success path). -/
def connectEnsure (fs : FileSystem) (path : String) : FileSystem :=
  match fsLookup fs path with
  | some _ => fs
  | none => fsSet fs path emptyDB

/-- CREATE TABLE IF NOT EXISTS results: a no-op when the table exists,
    otherwise creates the (empty) table; rows are never touched. -/
def createTableIfNotExists (d : ResultsDB) : ResultsDB :=
  if d.hasResultsTable then d else { d with hasResultsTable := true }

/-- create_db_table (recorder.py lines 46-73), success path: connect
    (creating the file if absent) and execute CREATE TABLE IF NOT EXISTS. -/
def create_db_table (fs : FileSystem) (path : String) : FileSystem :=
  let fs1 := connectEnsure fs path
  match fsLookup fs1 path with
  | some d => fsSet fs1 path (createTableIfNotExists d)
  | none => fs1

/-- check_db_exists_and_initialize (recorder.py lines 21-30): prints a
    message depending on whether the file exists, then calls
    create_db_table unconditionally. -/
def checkDbExistsAndInit (fs : FileSystem) (path : String) : FileSystem × List String :=
  let msg := if (fsLookup fs path).isSome then "Database exists. Connecting..."
    else "Database does not exist. Creating new database and initializing tables."
  (create_db_table fs path, [msg])

/- Recorder instance -/

/-- Attributes of an InternetSpeedTest instance (recorder.py lines 7-19). -/
structure RecorderState where
  servers : List String
  threads : Option Nat
  results : Option RawResult
  db_path : String
deriving DecidableEq

/-- InternetSpeedTest.__init__ (recorder.py lines 7-19): sets the
    attributes (results = None) and immediately calls
    check_db_exists_and_initialize.  Returns the new instance, the file
    system after initialization, and the printed output. -/
def recorderInit (fs : FileSystem) (db_path : String) (servers : List String)
    (threads : Option Nat) : RecorderState × FileSystem × List String :=
  let r := checkDbExistsAndInit fs db_path
  ({ servers := servers, threads := threads, results := none, db_path := db_path }, r.1, r.2)

/-- Process outcome: normal return, or sys.exit with the given code. -/
inductive Outcome
  | ok
  | exited (code : Nat)
deriving DecidableEq

/-- The four stages of run_test at which the external facility can raise
    a SpeedtestException (recorder.py lines 82-86). -/
inductive Stage
  | getServers
  | getBestServer
  | download
  | upload
deriving DecidableEq

/-- Behaviour of the external speedtest facility during one run_test call:
    either every stage succeeds and a raw result dictionary is produced, or
    some stage raises with a message.  The raw result is only readable
    after all four stages succeeded, matching recorder.py line 87. -/
inductive FacilityResult
  | success (r : RawResult)
  | failure (stage : Stage) (msg : String)
deriving DecidableEq

/-- run_test (recorder.py lines 75-90): on success stores the raw result
    dictionary in self.results; on a SpeedtestException at any stage prints
    a diagnostic and calls sys.exit(1), leaving self.results untouched. -/
def run_test (st : RecorderState) (f : FacilityResult) :
    RecorderState × Outcome × List String :=
  match f with
  | FacilityResult.success r => ({ st with results := some r }, Outcome.ok, [])
  | FacilityResult.failure _ msg =>
      (st, Outcome.exited 1, ["Error performing speed test: " ++ msg])

/-- Round a rational to the nearest integer, ties to even: the semantics
    of Python round applied to an exact value. -/
def roundHalfEven (q : ℚ) : ℤ :=
  if q < (⌊q⌋ : ℚ) + 1/2 then ⌊q⌋
  else if (⌊q⌋ : ℚ) + 1/2 < q then ⌊q⌋ + 1
  else if ⌊q⌋ % 2 = 0 then ⌊q⌋ else ⌊q⌋ + 1

/-- Python round(x, 2) on exact rationals: scale by 100, round half to
    even, scale back.  The source applies round to binary doubles; at
    every concrete value used in the claims the double computation agrees
    with this exact model (for 33335000 / 1e6 the nearest double lies
    strictly above the decimal midpoint 33.335, so both yield 33.34). -/
def round2 (q : ℚ) : ℚ := ((roundHalfEven (q * 100) : ℤ) : ℚ) / 100

/-- The field mapping of extract_results (recorder.py lines 102-113). -/
def extractRecord (r : RawResult) : ExtractedRecord :=
  { download_speed_mbps := round2 (r.download / 1000000)
  , upload_speed_mbps := round2 (r.upload / 1000000)
  , ping := r.ping
  , server_name := r.server.name
  , server_country := r.server.country
  , server_sponsor := r.server.sponsor
  , server_id := r.server.id
  , timestamp := r.timestamp
  , bytes_sent := r.bytes_sent
  , bytes_received := r.bytes_received }

/-- Result of one extract_results call: the printed output and the
    returned value (a record, or None). -/
structure ExtractOut where
  output : List String
  record : Option ExtractedRecord
deriving DecidableEq

/-- extract_results (recorder.py lines 92-113): when self.results is
    absent, prints a diagnostic and returns None; otherwise returns the
    extracted dictionary.  The function has no exit path and raises
    nothing. -/
def extract_results (st : RecorderState) : ExtractOut :=
  match st.results with
  | none => { output := ["No results to extract. Please run the test first."], record := none }
  | some r => { output := [], record := some (extractRecord r) }

/-- The eight lines printed for an extracted record
    (recorder.py lines 126-133). -/
def recordLines (e : ExtractedRecord) : List String :=
  [ "Internet Speed Test Results:"
  , "Download Speed: " ++ toString e.download_speed_mbps ++ " Mbps"
  , "Upload Speed: " ++ toString e.upload_speed_mbps ++ " Mbps"
  , "Ping: " ++ toString e.ping ++ " ms"
  , "Server Name: " ++ e.server_name
  , "Server Country: " ++ e.server_country
  , "Server Sponsor: " ++ e.server_sponsor
  , "Test Time: " ++ e.timestamp ]

/-- print_results (recorder.py lines 115-135): when self.results is
    absent, prints a diagnostic and returns; otherwise calls
    extract_results and prints either the formatted record or the
    fallback line.  Returns the full printed output. -/
def print_results (st : RecorderState) : List String :=
  match st.results with
  | none => ["No results available. Please run the test first."]
  | some _ =>
      let e := extract_results st
      match e.record with
      | some rec => e.output ++ recordLines rec
      | none => e.output ++ ["No results to display."]

/-- The standalone program (recorder.py lines 142-147): construct the
    recorder with default arguments, run the test, extract the results,
    and print them when extraction returned a value.  A measurement
    failure exits inside run_test, so extraction and printing are skipped
    on that path. -/
def cliMain (fs : FileSystem) (f : FacilityResult) :
    FileSystem × RecorderState × Outcome × List String :=
  let i := recorderInit fs "speedtest_results.db" [] none
  let t := run_test i.1 f
  match t.2.1 with
  | Outcome.exited c => (i.2.1, t.1, Outcome.exited c, i.2.2 ++ t.2.2)
  | Outcome.ok =>
      let e := extract_results t.1
      let out3 := if e.record.isSome then print_results t.1 else []
      (i.2.1, t.1, Outcome.ok, i.2.2 ++ t.2.2 ++ e.output ++ out3)

/- Connection accounting for create_db_table -/

/-- File system plus the number of currently open SQLite connections. -/
structure ConnState where
  fs : FileSystem
  openConns : Nat
deriving DecidableEq

/-- create_db_table with explicit connection accounting and fault
    injection (recorder.py lines 32-44 and 46-73): when connect fails,
    create_db_connection prints and exits before any connection is open;
    otherwise a connection is opened, and both the success path and the
    sys.exit(1) path of the except branch run the finally block, which
    closes it. -/
def create_db_table_conns (cs : ConnState) (path : String)
    (connectFails execFails : Bool) : ConnState × Outcome × List String :=
  if connectFails then
    (cs, Outcome.exited 1, ["Error connecting to database"])
  else
    let cs1 : ConnState := { fs := connectEnsure cs.fs path, openConns := cs.openConns + 1 }
    if execFails then
      ({ cs1 with openConns := cs1.openConns - 1 }, Outcome.exited 1, ["Error creating table"])
    else
      let fs2 := match fsLookup cs1.fs path with
        | some d => fsSet cs1.fs path (createTableIfNotExists d)
        | none => cs1.fs
      ({ fs := fs2, openConns := cs1.openConns - 1 }, Outcome.ok, [])

/- Store insertion -/

/-- Failure mode of an insertion: the primary-key constraint on id. -/
inductive InsertError
  | duplicateKey
deriving DecidableEq

/-- Modelled from the spec: the repository declares the results table with
    id TEXT PRIMARY KEY (create_db_table, recorder.py lines 50-64) but
    contains no insert operation; following the spec, insert(record)
    appends one MeasurementRecord as a new row, and fails with a
    DuplicateKeyError when record.id already exists among the stored
    rows (primary-key uniqueness enforced by the store). -/
def insertRecord (db : ResultsDB) (r : MeasurementRecord) :
    Except InsertError ResultsDB :=
  if ∃ q ∈ db.rows, q.id = r.id then Except.error InsertError.duplicateKey
  else Except.ok { db with rows := db.rows ++ [r] }

/- Helper abbreviations and concrete sample data -/

/-- Rows stored at a path, empty when no database file exists there. -/
def rowsAt (fs : FileSystem) (p : String) : List MeasurementRecord :=
  match fsLookup fs p with
  | some d => d.rows
  | none => []

def sampleServer : RawServer :=
  { name := "Acme", country := "US", sponsor := "ISP1", id := "42" }

/-- The stub raw result of the end-to-end scenario in the spec. -/
def sampleRaw80 : RawResult :=
  { download := 80000000, upload := 20000000, ping := 12, server := sampleServer
  , timestamp := "2024-01-01T00:00:00Z", bytes_sent := 1000, bytes_received := 2000 }

/-- A raw result at the rounding boundary of the spec. -/
def sampleRaw333 : RawResult :=
  { download := 33335000, upload := 0, ping := 0, server := sampleServer
  , timestamp := "2024-01-01T00:00:00Z", bytes_sent := 0, bytes_received := 0 }

/-- The round-trip fidelity raw result of the spec. -/
def sampleRaw52 : RawResult :=
  { download := 52000000, upload := 11400000, ping := 18, server := sampleServer
  , timestamp := "2024-01-01T00:00:00Z", bytes_sent := 1000, bytes_received := 2000 }

/-- A recorder instance holding the round-trip raw result. -/
def sampleState52 : RecorderState :=
  { servers := [], threads := none, results := some sampleRaw52
  , db_path := "speedtest_results.db" }

/-- A freshly constructed recorder instance: results is None. -/
def sampleStateFresh : RecorderState :=
  { servers := [], threads := none, results := none
  , db_path := "speedtest_results.db" }

def recA : MeasurementRecord :=
  { id := "t1", download_speed_mbps := 52, upload_speed_mbps := 57/5, ping := 18
  , server_name := "Acme", server_country := "US", server_sponsor := "ISP1"
  , server_id := "42", timestamp := "2024-01-01T00:00:00Z"
  , bytes_sent := 1000, bytes_received := 2000 }

/-- Same fields as recA except the id. -/
def recB : MeasurementRecord := { recA with id := "t2" }

/-- Same id as recA, different data fields. -/
def recAdup : MeasurementRecord := { recA with download_speed_mbps := 80 }

def emptyTableDB : ResultsDB := { hasResultsTable := true, rows := [] }

def dbWithA : ResultsDB := { hasResultsTable := true, rows := [recA] }

def noResultsAvailableMsg : String := "No results available. Please run the test first."

def noDisplayMsg : String := "No results to display."

end SpeedtestRec
namespace SpeedtestRec

/- Helper lemmas -/

theorem fsLookup_fsSet_self (fs : FileSystem) (p : String) (d : ResultsDB) :
    fsLookup (fsSet fs p d) p = some d := by
  induction fs with
  | nil => simp [fsSet, fsLookup]
  | cons hd tl ih =>
      obtain ⟨q, e⟩ := hd
      by_cases h : q = p
      · simp [fsSet, fsLookup, h]
      · simp [fsSet, fsLookup, h, ih]

theorem fsSet_self_of_lookup (fs : FileSystem) (p : String) (d : ResultsDB)
    (h : fsLookup fs p = some d) : fsSet fs p d = fs := by
  induction fs with
  | nil => simp [fsLookup] at h
  | cons hd tl ih =>
      obtain ⟨q, e⟩ := hd
      by_cases hq : q = p
      · subst hq
        simp [fsLookup] at h
        simp [fsSet, h]
      · simp [fsLookup, hq] at h
        simp [fsSet, hq, ih h]

theorem createTable_eq (d : ResultsDB) :
    createTableIfNotExists d = { hasResultsTable := true, rows := d.rows } := by
  obtain ⟨t, rows⟩ := d
  cases t <;> simp [createTableIfNotExists]

theorem create_db_table_lookup (fs : FileSystem) (p : String) :
    fsLookup (create_db_table fs p) p
      = some { hasResultsTable := true, rows := rowsAt fs p } := by
  cases h : fsLookup fs p with
  | some d => simp [create_db_table, connectEnsure, rowsAt, h, fsLookup_fsSet_self, createTable_eq]
  | none => simp [create_db_table, connectEnsure, rowsAt, h, fsLookup_fsSet_self, createTable_eq, emptyDB]

theorem create_db_table_noop (fs : FileSystem) (p : String) (d : ResultsDB)
    (h : fsLookup fs p = some d) (ht : d.hasResultsTable = true) :
    create_db_table fs p = fs := by
  have h1 : connectEnsure fs p = fs := by simp [connectEnsure, h]
  calc create_db_table fs p = fsSet fs p (createTableIfNotExists d) := by
        simp [create_db_table, h1, h]
    _ = fsSet fs p d := by simp [createTableIfNotExists, ht]
    _ = fs := fsSet_self_of_lookup _ _ _ h

theorem create_db_table_idem (fs : FileSystem) (p : String) :
    create_db_table (create_db_table fs p) p = create_db_table fs p :=
  create_db_table_noop _ p _ (create_db_table_lookup fs p) rfl

theorem round2_33335 : round2 ((33335000 : ℚ)/1000000) = 3334/100 := by
  have h1 : ((33335000 : ℚ)/1000000) * 100 = 6667/2 := by norm_num
  have hf : ⌊(6667/2 : ℚ)⌋ = 3333 := by
    rw [Int.floor_eq_iff]
    norm_num
  have h2 : roundHalfEven (6667/2 : ℚ) = 3334 := by
    unfold roundHalfEven
    rw [hf]
    norm_num
  unfold round2
  rw [h1, h2]
  norm_num

theorem round2_52 : round2 ((52000000 : ℚ)/1000000) = 52 := by
  have h1 : ((52000000 : ℚ)/1000000) * 100 = 5200 := by norm_num
  have hf : ⌊(5200 : ℚ)⌋ = 5200 := by
    rw [Int.floor_eq_iff]
    norm_num
  have h2 : roundHalfEven (5200 : ℚ) = 5200 := by
    unfold roundHalfEven
    rw [hf]
    norm_num
  unfold round2
  rw [h1, h2]
  norm_num

theorem round2_114 : round2 ((11400000 : ℚ)/1000000) = 57/5 := by
  have h1 : ((11400000 : ℚ)/1000000) * 100 = 1140 := by norm_num
  have hf : ⌊(1140 : ℚ)⌋ = 1140 := by
    rw [Int.floor_eq_iff]
    norm_num
  have h2 : roundHalfEven (1140 : ℚ) = 1140 := by
    unfold roundHalfEven
    rw [hf]
    norm_num
  unfold round2
  rw [h1, h2]
  norm_num

theorem recordLines_ne_singleton (e : ExtractedRecord) (x : String) :
    recordLines e ≠ [x] := by
  intro h
  have hl := congrArg List.length h
  simp [recordLines] at hl

/- Claim C3 -/

/-- C3: for a raw result with download = 33335000 bits per second,
    extract_results yields download_speed_mbps = 33.34, the speed field
    being the raw bits per second divided by 1000000 and rounded to two
    decimals. -/
theorem C3_rounding_boundary (r : RawResult) (h : r.download = 33335000) :
    (extractRecord r).download_speed_mbps = 3334/100 ∧
    (extractRecord r).download_speed_mbps = round2 (r.download / 1000000) := by
  constructor
  · show round2 (r.download / 1000000) = 3334/100
    rw [h]
    exact round2_33335
  · rfl

/-- C3 witness: the boundary value on a concrete raw result. -/
theorem C3_witness :
    (extractRecord sampleRaw333).download_speed_mbps = 3334/100 ∧
    (extractRecord sampleRaw333).download_speed_mbps
      = round2 (sampleRaw333.download / 1000000) :=
  C3_rounding_boundary sampleRaw333 rfl

/- Claim C1 -/

/-- C1 counterexample: the standalone CLI cycle with the stub raw result
    succeeds, a record is extracted, yet the store holds zero rows
    afterwards, so the extracted record is not retrievable from the
    store: the claimed persistence does not happen. -/
theorem C1_counterexample :
    (cliMain [] (FacilityResult.success sampleRaw80)).2.2.1 = Outcome.ok ∧
    (extract_results ((cliMain [] (FacilityResult.success sampleRaw80)).2.1)).record
      = some (extractRecord sampleRaw80) ∧
    rowsAt ((cliMain [] (FacilityResult.success sampleRaw80)).1) "speedtest_results.db"
      = [] :=
  ⟨rfl, rfl, rfl⟩

/-- C1 (amended): after a successful measurement cycle the standalone CLI
    creates the results table at initialization but persists nothing: the
    row set at the store path is exactly the row set that was there
    before, and the extracted record is only returned and printed, never
    inserted. -/
theorem C1_cli_no_persistence (fs : FileSystem) (r : RawResult) :
    (cliMain fs (FacilityResult.success r)).2.2.1 = Outcome.ok ∧
    fsLookup ((cliMain fs (FacilityResult.success r)).1) "speedtest_results.db"
      = some { hasResultsTable := true, rows := rowsAt fs "speedtest_results.db" } ∧
    (extract_results ((cliMain fs (FacilityResult.success r)).2.1)).record
      = some (extractRecord r) := by
  refine ⟨rfl, ?_, rfl⟩
  show fsLookup ((recorderInit fs "speedtest_results.db" [] none).2.1) "speedtest_results.db" = _
  simp [recorderInit, checkDbExistsAndInit, create_db_table_lookup]

/- Claim C2 -/

/-- C2: insert appends one MeasurementRecord as a new row; for every
    record whose id equals the id of an already-stored row, insert fails
    with DuplicateKeyError; and inserting two records with distinct ids
    (even with otherwise identical other fields) succeeds and yields two
    rows. -/
theorem C2_insert_unique :
    (∀ (db : ResultsDB) (r : MeasurementRecord),
        (∃ q ∈ db.rows, q.id = r.id) →
        insertRecord db r = Except.error InsertError.duplicateKey) ∧
    (∀ (db : ResultsDB) (r s : MeasurementRecord),
        r.id ≠ s.id →
        (∀ q ∈ db.rows, q.id ≠ r.id ∧ q.id ≠ s.id) →
        ∃ db1 db2, insertRecord db r = Except.ok db1 ∧
          insertRecord db1 s = Except.ok db2 ∧
          db2.rows = db.rows ++ [r, s]) := by
  constructor
  · intro db r h
    simp only [insertRecord]
    rw [if_pos h]
  · intro db r s hrs hall
    have h1 : ¬ ∃ q ∈ db.rows, q.id = r.id := by
      rintro ⟨q, hq, hid⟩
      exact (hall q hq).1 hid
    have h2 : ¬ ∃ q ∈ ({ db with rows := db.rows ++ [r] } : ResultsDB).rows, q.id = s.id := by
      rintro ⟨q, hq, hid⟩
      rcases List.mem_append.mp hq with hmem | hmem
      · exact (hall q hmem).2 hid
      · rw [List.mem_singleton.mp hmem] at hid
        exact hrs hid
    refine ⟨{ db with rows := db.rows ++ [r] },
      { db with rows := (db.rows ++ [r]) ++ [s] }, ?_, ?_, by simp⟩
    · simp only [insertRecord]
      rw [if_neg h1]
    · simp only [insertRecord]
      rw [if_neg h2]

/-- C2 witness: a duplicate id is rejected on a concrete store, and two
    concrete records with distinct ids both insert, yielding two rows. -/
theorem C2_witness :
    insertRecord dbWithA recAdup = Except.error InsertError.duplicateKey ∧
    (∃ db1 db2, insertRecord emptyTableDB recA = Except.ok db1 ∧
      insertRecord db1 recB = Except.ok db2 ∧
      db2.rows = emptyTableDB.rows ++ [recA, recB]) :=
  ⟨C2_insert_unique.1 dbWithA recAdup ⟨recA, by simp [dbWithA], rfl⟩,
   C2_insert_unique.2 emptyTableDB recA recB (by decide) (by simp [emptyTableDB])⟩

/- Claim C4 -/

/-- C4: for every raw result with download = 52000000 bits per second and
    upload = 11400000 bits per second stored in the recorder,
    extract_results yields download_speed_mbps = 52.0 and
    upload_speed_mbps = 11.4, and maps ping, the server fields, the
    timestamp and the byte counters through unchanged. -/
theorem C4_round_trip (st : RecorderState) (r : RawResult)
    (h : st.results = some r) (hd : r.download = 52000000)
    (hu : r.upload = 11400000) :
    (extract_results st).record = some
      { download_speed_mbps := 52
      , upload_speed_mbps := 57/5
      , ping := r.ping
      , server_name := r.server.name
      , server_country := r.server.country
      , server_sponsor := r.server.sponsor
      , server_id := r.server.id
      , timestamp := r.timestamp
      , bytes_sent := r.bytes_sent
      , bytes_received := r.bytes_received } := by
  simp only [extract_results, h]
  simp only [extractRecord, hd, hu, round2_52, round2_114]

/-- C4 witness: the round-trip raw result on a concrete recorder state. -/
theorem C4_witness :
    (extract_results sampleState52).record = some
      { download_speed_mbps := 52
      , upload_speed_mbps := 57/5
      , ping := 18
      , server_name := "Acme"
      , server_country := "US"
      , server_sponsor := "ISP1"
      , server_id := "42"
      , timestamp := "2024-01-01T00:00:00Z"
      , bytes_sent := 1000
      , bytes_received := 2000 } :=
  C4_round_trip sampleState52 sampleRaw52 rfl rfl rfl

/- Claim C5 -/

/-- C5: store initialization is idempotent: for every file system and
    path, a second initialization returns the same file system as the
    first (a no-op when the table exists), and the result holds exactly
    one results table at the path with the original rows preserved (no
    duplicate schema objects, no duplicate rows). -/
theorem C5_init_idempotent (fs : FileSystem) (p : String) :
    (checkDbExistsAndInit ((checkDbExistsAndInit fs p).1) p).1
      = (checkDbExistsAndInit fs p).1 ∧
    fsLookup ((checkDbExistsAndInit fs p).1) p
      = some { hasResultsTable := true, rows := rowsAt fs p } :=
  ⟨by simp [checkDbExistsAndInit, create_db_table_idem],
   by simp [checkDbExistsAndInit, create_db_table_lookup]⟩

/- Claim C6 -/

/-- C6: on a freshly constructed recorder instance (run_test never
    called, so self.results is None), extract_results returns None and
    print_results prints no record; each emits exactly its diagnostic
    line, and neither has an exit path. -/
theorem C6_fresh_instance_safe (fs : FileSystem) (p : String)
    (sv : List String) (th : Option Nat) :
    (extract_results ((recorderInit fs p sv th).1)).record = none ∧
    (extract_results ((recorderInit fs p sv th).1)).output
      = ["No results to extract. Please run the test first."] ∧
    print_results ((recorderInit fs p sv th).1)
      = ["No results available. Please run the test first."] :=
  ⟨rfl, rfl, rfl⟩

/- Claim C7 -/

/-- C7: when the external facility fails at any stage of run_test, the
    process prints a diagnostic and terminates with a non-zero status,
    and no partial result is retained: the stored raw result remains
    absent. -/
theorem C7_measurement_failure_fatal (st : RecorderState) (stage : Stage)
    (msg : String) (h : st.results = none) :
    (run_test st (FacilityResult.failure stage msg)).2.1 = Outcome.exited 1 ∧
    (run_test st (FacilityResult.failure stage msg)).2.2
      = ["Error performing speed test: " ++ msg] ∧
    (run_test st (FacilityResult.failure stage msg)).1.results = none := by
  refine ⟨rfl, rfl, ?_⟩
  simpa [run_test] using h

/-- C7 witness: a concrete download-stage failure on a fresh instance. -/
theorem C7_witness :
    (run_test sampleStateFresh (FacilityResult.failure Stage.download "no servers")).2.1
      = Outcome.exited 1 ∧
    (run_test sampleStateFresh (FacilityResult.failure Stage.download "no servers")).2.2
      = ["Error performing speed test: " ++ "no servers"] ∧
    (run_test sampleStateFresh
      (FacilityResult.failure Stage.download "no servers")).1.results = none :=
  C7_measurement_failure_fatal sampleStateFresh Stage.download "no servers" rfl

/- Claim C8 -/

/-- C8 counterexample: constructing a recorder on an empty file system
    already creates the backing file and the results table, before any
    use of the store, refuting lazy creation. -/
theorem C8_counterexample :
    fsLookup (([] : FileSystem)) "speedtest_results.db" = none ∧
    fsLookup ((recorderInit [] "speedtest_results.db" [] none).2.1)
      "speedtest_results.db" = some { hasResultsTable := true, rows := [] } :=
  ⟨rfl, rfl⟩

/-- C8 (amended): store creation is eager, not lazy: constructing a
    recorder immediately creates the backing file and the measurement
    table inside the constructor (idempotently when they already exist);
    no creation is deferred to a later first use. -/
theorem C8_eager_creation (fs : FileSystem) (p : String) (sv : List String)
    (th : Option Nat) :
    fsLookup ((recorderInit fs p sv th).2.1) p
      = some { hasResultsTable := true, rows := rowsAt fs p } := by
  simp [recorderInit, checkDbExistsAndInit, create_db_table_lookup]

/- Claim C9 -/

/-- C9: create_db_table balances its connection on every exit path: with
    or without a connect failure or a table-creation failure (the latter
    two ending in fatal termination), the number of open connections
    after the operation equals the number before. -/
theorem C9_connections_balanced (cs : ConnState) (p : String)
    (connectFails execFails : Bool) :
    (create_db_table_conns cs p connectFails execFails).1.openConns
      = cs.openConns := by
  cases connectFails <;> cases execFails <;>
    simp [create_db_table_conns]

/- Claim C10 -/

/-- C10: print_results never reaches its fallback branch: for every
    recorder state it prints either the no-results diagnostic (when the
    raw result is absent) or the full formatted record, and its output is
    never the fallback line "No results to display.". -/
theorem C10_fallback_unreachable (st : RecorderState) :
    (print_results st = [noResultsAvailableMsg] ∨
      ∃ e, (extract_results st).record = some e ∧ print_results st = recordLines e) ∧
    print_results st ≠ [noDisplayMsg] := by
  cases h : st.results with
  | none =>
      constructor
      · left
        simp [print_results, h, noResultsAvailableMsg]
      · simp only [print_results, h, noDisplayMsg]
        decide
  | some r =>
      constructor
      · right
        exact ⟨extractRecord r, by simp [extract_results, h],
          by simp [print_results, extract_results, h]⟩
      · have hpr : print_results st = recordLines (extractRecord r) := by
          simp [print_results, extract_results, h]
        rw [hpr]
        exact recordLines_ne_singleton _ _

/-- C10 witness: a concrete state holding a raw result prints the full
    formatted record and not the fallback line. -/
theorem C10_witness :
    (print_results sampleState52 = [noResultsAvailableMsg] ∨
      ∃ e, (extract_results sampleState52).record = some e ∧
        print_results sampleState52 = recordLines e) ∧
    print_results sampleState52 ≠ [noDisplayMsg] :=
  C10_fallback_unreachable sampleState52

end SpeedtestRec
